import Mathlib

/-!
Verification of the Polar-payments POC webhook and purchase-ledger subsystem.

The definitions below are a shallow embedding of the TypeScript source:
  - `src/backend/src/billing/billing.service.ts` (purchase ledger),
  - `billing.plan.ts` (plan identifiers),
  - `billing.webhook.ts` (webhook endpoint and event dispatch),
  - `billing.rpc.ts` (checkout endpoint).
The in-memory `Map<string, Purchase[]>` store is embedded as a function
`String → List Purchase` with the JS `get(k) || []` default; `Date` values
become `Nat` timestamps passed in explicitly.
-/

namespace Polar

/-- `PlanId` from billing.plan.ts: the closed union `"pro" | "master"`. -/
inductive PlanId where
  | pro
  | master
deriving DecidableEq, Repr

/-- Purchase status from billing.service.ts: `"active" | "canceled" | "revoked"`. -/
inductive Status where
  | active
  | canceled
  | revoked
deriving DecidableEq, Repr

/-- The `Purchase` interface of billing.service.ts (field `oderId` is spelled
as in the source). -/
structure Purchase where
  oderId : String
  customerId : String
  productId : String
  planId : PlanId
  purchasedAt : Nat
  status : Status
deriving DecidableEq, Repr

/-- The in-memory `purchaseStore : Map<string, Purchase[]>`, embedded with the
JS read convention `purchaseStore.get(customerId) || []`. -/
def Ledger : Type := String → List Purchase

/-- The ledger at process start: `new Map()`, every customer maps to `[]`. -/
def emptyLedger : Ledger := fun _ => []

/-- The predicate tested by the JS callbacks
`(p) => p.planId === planId && p.status === "active"` in `recordPurchase`,
`hasPurchasedPlan` and `revokePurchase`. -/
def isActiveFor (planId : PlanId) (p : Purchase) : Bool :=
  decide (p.planId = planId) && decide (p.status = Status.active)

/-- `initProductPlanMapping` of billing.service.ts: builds the
`productToPlanMap` from the two env vars; when both are present and equal,
the later `set` (master) wins, as for a JS `Map`. -/
def initProductPlanMapping (proProductId masterProductId : Option String) :
    String → Option PlanId :=
  fun pid =>
    if masterProductId = some pid then some PlanId.master
    else if proProductId = some pid then some PlanId.pro
    else none

/-- `recordPurchase(customerId, productId, orderId)` of billing.service.ts.
`pmap` is the module-level `productToPlanMap`; `now` is `new Date()`.
Unknown product: return with the store untouched.  Already an active record
for (customerId, planId): return with the store untouched.  Otherwise push a
new `active` record onto the customer's list. -/
def recordPurchase (pmap : String → Option PlanId) (store : Ledger)
    (customerId productId orderId : String) (now : Nat) : Ledger :=
  match pmap productId with
  | none => store
  | some planId =>
    let existingPurchases := store customerId
    if existingPurchases.any (isActiveFor planId) then store
    else fun c =>
      if c = customerId then
        existingPurchases ++
          [{ oderId := orderId, customerId := customerId, productId := productId,
             planId := planId, purchasedAt := now, status := Status.active }]
      else store c

/-- `getCustomerPurchases(customerId)` of billing.service.ts. -/
def getCustomerPurchases (store : Ledger) (customerId : String) : List Purchase :=
  store customerId

/-- `getPurchasedPlanIds(customerId)` of billing.service.ts: filter the
customer's purchases to `active` status and project the plan ids. -/
def getPurchasedPlanIds (store : Ledger) (customerId : String) : List PlanId :=
  ((store customerId).filter (fun p => decide (p.status = Status.active))).map
    (fun p => p.planId)

/-- `hasPurchasedPlan(customerId, planId)` of billing.service.ts:
`purchases.some((p) => p.planId === planId && p.status === "active")`. -/
def hasPurchasedPlan (store : Ledger) (customerId : String) (planId : PlanId) : Bool :=
  (store customerId).any (isActiveFor planId)

/-- The in-place mutation of `revokePurchase`: `purchases.find(...)` picks the
first record with the given plan in `active` status and sets its status; the
rest of the array is untouched.  `newStatus` is `"revoked"` in the source. -/
def setFirstActive (newStatus : Status) (planId : PlanId) :
    List Purchase → List Purchase
  | [] => []
  | p :: ps =>
    if isActiveFor planId p then { p with status := newStatus } :: ps
    else p :: setFirstActive newStatus planId ps

/-- `revokePurchase(customerId, planId)` of billing.service.ts: find the first
active record for the pair and set its status to `revoked`; if none, do
nothing. -/
def revokePurchase (store : Ledger) (customerId : String) (planId : PlanId) : Ledger :=
  fun c =>
    if c = customerId then setFirstActive Status.revoked planId (store customerId)
    else store c

/-- Modelled from the spec: `cancelPurchase(customerId, planId)` is named by
the spec's ledger contract but is absent from src/; per the contract it
"transitions the matching active record's status" to `canceled` and is a
no-op when no active record exists — the same find-first discipline as
`revokePurchase`. -/
def cancelPurchase (store : Ledger) (customerId : String) (planId : PlanId) : Ledger :=
  fun c =>
    if c = customerId then setFirstActive Status.canceled planId (store customerId)
    else store c

/-- Number of `active` records a customer holds for a given plan. -/
def activeCount (store : Ledger) (customerId : String) (planId : PlanId) : Nat :=
  ((store customerId).filter (isActiveFor planId)).length

/-- The ledger invariant of the spec: at most one `active` record per
(customer identity, plan identifier) pair. -/
def Inv (store : Ledger) : Prop :=
  ∀ c planId, activeCount store c planId ≤ 1

/-- `onSubscriptionActive(customerId, productId?, subscriptionId?)` of
billing.service.ts: records the purchase only when BOTH optional arguments
are supplied, then logs. -/
def onSubscriptionActive (pmap : String → Option PlanId) (store : Ledger)
    (customerId : String) (productId subscriptionId : Option String)
    (now : Nat) : Ledger :=
  match productId, subscriptionId with
  | some pid, some sid => recordPurchase pmap store customerId pid sid now
  | _, _ => store

/-- `onSubscriptionCanceled(customerId)` of billing.service.ts: logs only,
no ledger effect. -/
def onSubscriptionCanceled (store : Ledger) (_customerId : String) : Ledger :=
  store

/-- The event envelope fields the webhook handler reads (`event.data.*` in
billing.webhook.ts). -/
structure EventData where
  id : String
  customerId : String
  productId : String
  dataStatus : String
deriving DecidableEq, Repr

/-- An authenticated, parsed event: a `type` tag plus a payload. -/
structure PolarEvent where
  type : String
  data : EventData
deriving DecidableEq, Repr

/-- The failure taxonomy of the authenticator: the SDK signals signature and
timestamp failures as `WebhookVerificationError`; parse failure on verified
bytes is a distinct condition. -/
inductive VerifyError where
  | SignatureInvalid
  | EventStale
  | MalformedEvent
deriving DecidableEq, Repr

/-- Modelled from the spec: `validateEvent` of `@polar-sh/sdk/webhooks` is
vendor code, absent from src/.  Per the spec's Event Authenticator contract:
compute the expected signature over the raw body with the secret and compare
with the supplied header (mismatch → SignatureInvalid); reject timestamps
outside the freshness window (→ EventStale); only then parse the verified
bytes (parse failure → MalformedEvent).  `hmac` (signature over secret and
body), `freshOk` and `parse` are abstract parameters of the model. -/
def validateEvent (hmac : String → String → String)
    (freshOk : String → Bool) (parse : String → Option PolarEvent)
    (rawBody : String) (headerTimestamp headerSignature : String)
    (secret : String) : Except VerifyError PolarEvent :=
  if headerSignature ≠ hmac secret rawBody then Except.error VerifyError.SignatureInvalid
  else if ¬ freshOk headerTimestamp then Except.error VerifyError.EventStale
  else
    match parse rawBody with
    | some e => Except.ok e
    | none => Except.error VerifyError.MalformedEvent

/-- The event-type switch of billing.webhook.ts.  Exactly two cases touch the
service layer: `subscription.active` calls
`onSubscriptionActive(event.data.customerId)` — only the customer id, no
product or subscription id — and `subscription.canceled` calls
`onSubscriptionCanceled(event.data.customerId)`.  Every other case,
including the `default` arm, only logs. -/
def handleEvent (pmap : String → Option PlanId) (now : Nat)
    (event : PolarEvent) (store : Ledger) : Ledger :=
  if event.type = "subscription.active" then
    onSubscriptionActive pmap store event.data.customerId none none now
  else if event.type = "subscription.canceled" then
    onSubscriptionCanceled store event.data.customerId
  else if event.type = "subscription.created" then store
  else if event.type = "subscription.updated" then store
  else if event.type = "subscription.revoked" then store
  else if event.type = "checkout.created" then store
  else if event.type = "checkout.updated" then store
  else if event.type = "order.created" then store
  else if event.type = "order.paid" then store
  else store

/-- HTTP status plus resulting ledger of one webhook delivery. -/
structure WebhookResult where
  status : Nat
  ledger : Ledger

/-- The `POST /api/webhooks/polar` handler of billing.webhook.ts: missing
secret → 500; `WebhookVerificationError` (bad signature or stale timestamp)
→ 401; any other validation error → 400; otherwise dispatch by type and
acknowledge with 200 (`c.json(\x7b received: true \x7d)`). -/
def billingWebhooksPost (hmac : String → String → String)
    (freshOk : String → Bool) (parse : String → Option PolarEvent)
    (pmap : String → Option PlanId) (now : Nat)
    (webhookSecret : Option String) (rawBody : String)
    (headerTimestamp headerSignature : String) (store : Ledger) : WebhookResult :=
  match webhookSecret with
  | none => { status := 500, ledger := store }
  | some secret =>
    match validateEvent hmac freshOk parse rawBody headerTimestamp headerSignature secret with
    | Except.error VerifyError.SignatureInvalid => { status := 401, ledger := store }
    | Except.error VerifyError.EventStale => { status := 401, ledger := store }
    | Except.error VerifyError.MalformedEvent => { status := 400, ledger := store }
    | Except.ok event => { status := 200, ledger := handleEvent pmap now event store }

/-- `isValidPlan` of billing.plan.ts: `plan === "pro" || plan === "master"`. -/
def isValidPlan (plan : String) : Bool :=
  plan = "pro" || plan = "master"

/-- The parse implicit in the TS type guard `plan is PlanId`. -/
def planOfString (plan : String) : Option PlanId :=
  if plan = "pro" then some PlanId.pro
  else if plan = "master" then some PlanId.master
  else none

/-- `getProductId(planId)` of billing.rpc.ts: pick the env var for the plan;
a missing var throws. -/
def getProductId (proProductId masterProductId : Option String)
    (planId : PlanId) : Option String :=
  match planId with
  | PlanId.pro => proProductId
  | PlanId.master => masterProductId

/-- Outcome of `billingRpc.createCheckout`, with the error strings of the
source. -/
inductive CheckoutResponse where
  | badRequest (message : String)
  | thrown (message : String)
  | url (productId : String)
deriving DecidableEq, Repr

/-- The fixed POC customer of billing.rpc.ts. -/
def pocCustomerId : String := "poc_user_001"

/-- `billingRpc.createCheckout` of billing.rpc.ts (the version that gates on
the ledger): validate the plan string; reject when the POC customer already
holds the plan active — BEFORE resolving the product id and before the
external `polar.checkouts.create` call; otherwise make the external call.
The second component records whether the external call was made; the third
is the ledger, which the handler never mutates. -/
def createCheckout (store : Ledger) (proProductId masterProductId : Option String)
    (bodyPlanId : Option String) : CheckoutResponse × Bool × Ledger :=
  match bodyPlanId with
  | none => (CheckoutResponse.badRequest "Invalid plan selected", false, store)
  | some planStr =>
    if isValidPlan planStr then
      match planOfString planStr with
      | none => (CheckoutResponse.badRequest "Invalid plan selected", false, store)
      | some planId =>
        if hasPurchasedPlan store pocCustomerId planId then
          (CheckoutResponse.badRequest "You have already purchased this plan", false, store)
        else
          match getProductId proProductId masterProductId planId with
          | none =>
            (CheckoutResponse.thrown "Missing product ID for plan", false, store)
          | some productId => (CheckoutResponse.url productId, true, store)
    else (CheckoutResponse.badRequest "Invalid plan selected", false, store)

/-! ### Concrete instances for evaluation -/

/-- A concrete product-to-plan map: one product resolving to the `pro` plan,
as produced by `initProductPlanMapping (some "prod_pro") none`. -/
def pmapDemo : String → Option PlanId :=
  fun pid => if pid = "prod_pro" then some PlanId.pro else none

/-- A ledger in which the POC customer already holds `pro` active. -/
def storePoc : Ledger := fun c =>
  if c = pocCustomerId then
    [{ oderId := "o1", customerId := pocCustomerId, productId := "prod_pro",
       planId := PlanId.pro, purchasedAt := 0, status := Status.active }]
  else []

/-- The activation event of the spec's end-to-end scenario: customer `c1`,
product mapped to `pro`, order/subscription `o1`. -/
def eventActiveDemo : PolarEvent :=
  { type := "subscription.active",
    data := { id := "o1", customerId := "c1", productId := "prod_pro",
              dataStatus := "active" } }

/-- One authenticated delivery of `eventActiveDemo` through the full webhook
endpoint: the signature header matches the (demo) signature function, the
timestamp is fresh, and the body parses to the event. -/
def deliverActivation (store : Ledger) : WebhookResult :=
  billingWebhooksPost (fun _ _ => "sig") (fun _ => true)
    (fun _ => some eventActiveDemo) pmapDemo 0 (some "secret")
    "rawbody" "ts" "sig" store

/-! ### Helper lemmas on the ledger operations -/

theorem Inv_emptyLedger : Inv emptyLedger := by
  intro c planId
  simp [activeCount, emptyLedger]

theorem setFirstActive_of_not_any {pl : PlanId} {l : List Purchase} (ns : Status)
    (h : l.any (isActiveFor pl) = false) : setFirstActive ns pl l = l := by
  induction l with
  | nil => rfl
  | cons p ps ih =>
    simp only [List.any_cons, Bool.or_eq_false_iff] at h
    simp [setFirstActive, h.1, ih h.2]

theorem length_setFirstActive (ns : Status) (pl : PlanId) (l : List Purchase) :
    (setFirstActive ns pl l).length = l.length := by
  induction l with
  | nil => rfl
  | cons p ps ih =>
    by_cases h : isActiveFor pl p = true
    · simp [setFirstActive, h]
    · simp [setFirstActive, h, ih]

theorem filter_setFirstActive_ne (ns : Status) {pl pl' : PlanId} (h : pl' ≠ pl)
    (l : List Purchase) :
    (setFirstActive ns pl l).filter (isActiveFor pl') = l.filter (isActiveFor pl') := by
  induction l with
  | nil => rfl
  | cons p ps ih =>
    by_cases hp : isActiveFor pl p = true
    · have hp' : p.planId = pl ∧ p.status = Status.active := by
        simpa [isActiveFor] using hp
      have hsymm : pl ≠ pl' := Ne.symm h
      have hne : isActiveFor pl' p = false := by
        simp [isActiveFor, hp'.1, hsymm]
      have hne2 : isActiveFor pl' { p with status := ns } = false := by
        simp [isActiveFor, hp'.1, hsymm]
      simp [setFirstActive, hp, List.filter_cons, hne, hne2]
    · simp [setFirstActive, hp, List.filter_cons, ih]

theorem count_setFirstActive {ns : Status} (h : ns ≠ Status.active)
    (pl : PlanId) (l : List Purchase) :
    ((setFirstActive ns pl l).filter (isActiveFor pl)).length
      = (l.filter (isActiveFor pl)).length - 1 := by
  induction l with
  | nil => rfl
  | cons p ps ih =>
    by_cases hp : isActiveFor pl p = true
    · have hmod : isActiveFor pl { p with status := ns } = false := by
        simp [isActiveFor, h]
      simp [setFirstActive, hp, List.filter_cons, hmod]
    · simp [setFirstActive, hp, List.filter_cons, ih]

theorem recordPurchase_unknown (pmap : String → Option PlanId) (store : Ledger)
    (customerId productId orderId : String) (now : Nat)
    (h : pmap productId = none) :
    recordPurchase pmap store customerId productId orderId now = store := by
  simp [recordPurchase, h]

theorem recordPurchase_already (pmap : String → Option PlanId) (store : Ledger)
    (customerId productId orderId : String) (now : Nat) (planId : PlanId)
    (hres : pmap productId = some planId)
    (h : hasPurchasedPlan store customerId planId = true) :
    recordPurchase pmap store customerId productId orderId now = store := by
  unfold recordPurchase
  rw [hres]
  simp only [hasPurchasedPlan] at h
  simp [h]

theorem recordPurchase_append (pmap : String → Option PlanId) (store : Ledger)
    (customerId productId orderId : String) (now : Nat) (planId : PlanId)
    (hres : pmap productId = some planId)
    (h : hasPurchasedPlan store customerId planId = false) :
    recordPurchase pmap store customerId productId orderId now = fun c =>
      if c = customerId then
        store customerId ++
          [{ oderId := orderId, customerId := customerId, productId := productId,
             planId := planId, purchasedAt := now, status := Status.active }]
      else store c := by
  unfold recordPurchase
  rw [hres]
  simp only [hasPurchasedPlan] at h
  simp [h]

theorem hasPurchasedPlan_iff_activeCount (store : Ledger) (customerId : String)
    (planId : PlanId) :
    hasPurchasedPlan store customerId planId = true ↔
      0 < activeCount store customerId planId := by
  simp [hasPurchasedPlan, activeCount, List.any_eq_true, List.length_pos,
    List.filter_eq_nil_iff, not_forall]

theorem activeCount_recordPurchase (pmap : String → Option PlanId) (store : Ledger)
    (customerId productId orderId : String) (now : Nat) (planId : PlanId)
    (hres : pmap productId = some planId) (hinv : Inv store) :
    activeCount (recordPurchase pmap store customerId productId orderId now)
      customerId planId = 1 := by
  by_cases h : hasPurchasedPlan store customerId planId = true
  · rw [recordPurchase_already pmap store customerId productId orderId now planId hres h]
    have h1 := (hasPurchasedPlan_iff_activeCount store customerId planId).mp h
    have h2 := hinv customerId planId
    omega
  · rw [recordPurchase_append pmap store customerId productId orderId now planId hres
      (by simpa using h)]
    have h0 : activeCount store customerId planId = 0 := by
      have := (hasPurchasedPlan_iff_activeCount store customerId planId).not.mp h
      omega
    simp only [activeCount] at h0 ⊢
    simp [List.filter_append, isActiveFor, h0]

theorem activeCount_recordPurchase_preserved (pmap : String → Option PlanId)
    (store : Ledger) (customerId productId orderId : String) (now : Nat)
    (c : String) (pl : PlanId) (hinv : Inv store) :
    activeCount (recordPurchase pmap store customerId productId orderId now) c pl ≤ 1 := by
  cases hres : pmap productId with
  | none =>
    rw [recordPurchase_unknown pmap store customerId productId orderId now hres]
    exact hinv c pl
  | some planId =>
    by_cases h : hasPurchasedPlan store customerId planId = true
    · rw [recordPurchase_already pmap store customerId productId orderId now planId hres h]
      exact hinv c pl
    · rw [recordPurchase_append pmap store customerId productId orderId now planId hres
        (by simpa using h)]
      by_cases hc : c = customerId
      · subst hc
        by_cases hpl : pl = planId
        · subst hpl
          have h0 : activeCount store c pl = 0 := by
            have := (hasPurchasedPlan_iff_activeCount store c pl).not.mp h
            omega
          simp only [activeCount] at h0 ⊢
          simp [List.filter_append, isActiveFor, h0]
        · have h2 : planId ≠ pl := Ne.symm hpl
          have h1 := hinv c pl
          simp only [activeCount] at h1 ⊢
          simpa [List.filter_append, isActiveFor, h2] using h1
      · have h1 := hinv c pl
        simp only [activeCount] at h1 ⊢
        simpa [hc] using h1

theorem activeCount_revokePurchase (store : Ledger) (customerId : String)
    (planId : PlanId) :
    activeCount (revokePurchase store customerId planId) customerId planId
      = activeCount store customerId planId - 1 := by
  simp only [activeCount, revokePurchase, if_pos]
  exact count_setFirstActive (by simp) planId (store customerId)

theorem activeCount_cancelPurchase (store : Ledger) (customerId : String)
    (planId : PlanId) :
    activeCount (cancelPurchase store customerId planId) customerId planId
      = activeCount store customerId planId - 1 := by
  simp only [activeCount, cancelPurchase, if_pos]
  exact count_setFirstActive (by simp) planId (store customerId)

theorem Inv_revokePurchase (store : Ledger) (customerId : String) (planId : PlanId)
    (hinv : Inv store) : Inv (revokePurchase store customerId planId) := by
  intro c pl
  by_cases hc : c = customerId
  · subst hc
    by_cases hpl : pl = planId
    · subst hpl
      rw [activeCount_revokePurchase]
      have := hinv c pl
      omega
    · have h1 := hinv c pl
      simp only [activeCount, revokePurchase, if_pos] at h1 ⊢
      rw [filter_setFirstActive_ne Status.revoked hpl]
      exact h1
  · have h1 := hinv c pl
    simp only [activeCount, revokePurchase] at h1 ⊢
    simpa [hc] using h1

theorem Inv_cancelPurchase (store : Ledger) (customerId : String) (planId : PlanId)
    (hinv : Inv store) : Inv (cancelPurchase store customerId planId) := by
  intro c pl
  by_cases hc : c = customerId
  · subst hc
    by_cases hpl : pl = planId
    · subst hpl
      rw [activeCount_cancelPurchase]
      have := hinv c pl
      omega
    · have h1 := hinv c pl
      simp only [activeCount, cancelPurchase, if_pos] at h1 ⊢
      rw [filter_setFirstActive_ne Status.canceled hpl]
      exact h1
  · have h1 := hinv c pl
    simp only [activeCount, cancelPurchase] at h1 ⊢
    simpa [hc] using h1

theorem setFirstActive_spec (pl : PlanId) {l : List Purchase}
    (h : l.any (isActiveFor pl) = true) :
    ∃ l1 p l2, l = l1 ++ p :: l2 ∧ isActiveFor pl p = true ∧
      (∀ q ∈ l1, isActiveFor pl q = false) ∧
      ∀ ns, setFirstActive ns pl l = l1 ++ { p with status := ns } :: l2 := by
  induction l with
  | nil => simp at h
  | cons p ps ih =>
    by_cases hp : isActiveFor pl p = true
    · exact ⟨[], p, ps, rfl, hp, by simp, fun ns => by simp [setFirstActive, hp]⟩
    · have hps : ps.any (isActiveFor pl) = true := by
        have hp0 : isActiveFor pl p = false := by simpa using hp
        simpa [List.any_cons, hp0] using h
      obtain ⟨l1, q, l2, h1, h2, h3, h4⟩ := ih hps
      refine ⟨p :: l1, q, l2, by simp [h1], h2, ?_, fun ns => by simp [setFirstActive, hp, h4 ns]⟩
      intro r hr
      rcases List.mem_cons.mp hr with hr1 | hr1
      · simpa [hr1] using (by simpa using hp)
      · exact h3 r hr1

theorem revokePurchase_noop (store : Ledger) (customerId : String) (planId : PlanId)
    (h : hasPurchasedPlan store customerId planId = false) :
    revokePurchase store customerId planId = store := by
  funext c
  simp only [revokePurchase]
  by_cases hc : c = customerId
  · subst hc
    rw [if_pos rfl, setFirstActive_of_not_any Status.revoked (by simpa [hasPurchasedPlan] using h)]
  · rw [if_neg hc]

theorem cancelPurchase_noop (store : Ledger) (customerId : String) (planId : PlanId)
    (h : hasPurchasedPlan store customerId planId = false) :
    cancelPurchase store customerId planId = store := by
  funext c
  simp only [cancelPurchase]
  by_cases hc : c = customerId
  · subst hc
    rw [if_pos rfl, setFirstActive_of_not_any Status.canceled (by simpa [hasPurchasedPlan] using h)]
  · rw [if_neg hc]

/-! ### Claim theorems -/

/-- Claim C2: for every (customer identity, plan identifier) pair at most one
purchase record is in `active` status: the empty initial ledger satisfies the
invariant, every mutating ledger operation (`recordPurchase`,
`revokePurchase`) preserves it, and re-activating an already-active plan is a
no-op on the ledger. -/
theorem ledger_invariant :
    Inv emptyLedger ∧
    (∀ pmap store customerId productId orderId now, Inv store →
      Inv (recordPurchase pmap store customerId productId orderId now)) ∧
    (∀ store customerId planId, Inv store →
      Inv (revokePurchase store customerId planId)) ∧
    (∀ pmap store customerId productId orderId now planId,
      pmap productId = some planId →
      hasPurchasedPlan store customerId planId = true →
      recordPurchase pmap store customerId productId orderId now = store) := by
  refine ⟨Inv_emptyLedger, ?_, ?_, ?_⟩
  · intro pmap store customerId productId orderId now hinv c pl
    exact activeCount_recordPurchase_preserved pmap store customerId productId orderId
      now c pl hinv
  · intro store customerId planId hinv
    exact Inv_revokePurchase store customerId planId hinv
  · intro pmap store customerId productId orderId now planId hres h
    exact recordPurchase_already pmap store customerId productId orderId now planId hres h

/-- Witness for C2 at a concrete input. -/
theorem ledger_invariant_witness :
    Inv (recordPurchase pmapDemo emptyLedger "c1" "prod_pro" "o1" 0) :=
  ledger_invariant.2.1 pmapDemo emptyLedger "c1" "prod_pro" "o1" 0 Inv_emptyLedger

/-- Claim C3: `recordPurchase` is idempotent — for every invariant-satisfying
ledger and every (customerId, productId, orderId) whose product resolves to a
plan, the state after the first call has exactly one active record for
(customer, plan), and the second call with the same arguments is a no-op on
the ledger. -/
theorem recordPurchase_idempotent (pmap : String → Option PlanId) (store : Ledger)
    (customerId productId orderId : String) (now now2 : Nat) (planId : PlanId)
    (hres : pmap productId = some planId) (hinv : Inv store) :
    recordPurchase pmap (recordPurchase pmap store customerId productId orderId now)
        customerId productId orderId now2
      = recordPurchase pmap store customerId productId orderId now ∧
    activeCount (recordPurchase pmap store customerId productId orderId now)
        customerId planId = 1 := by
  have hcount := activeCount_recordPurchase pmap store customerId productId orderId
    now planId hres hinv
  have hhas : hasPurchasedPlan (recordPurchase pmap store customerId productId orderId now)
      customerId planId = true := by
    rw [hasPurchasedPlan_iff_activeCount, hcount]
    omega
  exact ⟨recordPurchase_already pmap _ customerId productId orderId now2 planId hres hhas,
    hcount⟩

/-- Witness for C3 at a concrete input. -/
theorem recordPurchase_idempotent_witness :
    (recordPurchase pmapDemo (recordPurchase pmapDemo emptyLedger "c1" "prod_pro" "o1" 0)
        "c1" "prod_pro" "o1" 1
      = recordPurchase pmapDemo emptyLedger "c1" "prod_pro" "o1" 0) ∧
    activeCount (recordPurchase pmapDemo emptyLedger "c1" "prod_pro" "o1" 0)
        "c1" PlanId.pro = 1 :=
  recordPurchase_idempotent pmapDemo emptyLedger "c1" "prod_pro" "o1" 0 1 PlanId.pro
    (by decide) Inv_emptyLedger

/-- Claim C7: recording a purchase for a product id absent from the
product-to-plan map is a recoverable no-op: no record is created, nothing is
raised, and the ledger is returned unchanged. -/
theorem recordPurchase_unknown_product_noop (pmap : String → Option PlanId)
    (store : Ledger) (customerId productId orderId : String) (now : Nat)
    (h : pmap productId = none) :
    recordPurchase pmap store customerId productId orderId now = store :=
  recordPurchase_unknown pmap store customerId productId orderId now h

/-- Witness for C7 at a concrete input. -/
theorem recordPurchase_unknown_product_noop_witness :
    recordPurchase pmapDemo emptyLedger "c1" "prod_unknown" "o1" 0 = emptyLedger :=
  recordPurchase_unknown_product_noop pmapDemo emptyLedger "c1" "prod_unknown" "o1" 0
    (by decide)

/-- Claim C10: the two ledger queries agree — `hasPurchasedPlan` returns true
exactly when the plan is an element of `getPurchasedPlanIds`, for every
ledger, customer and plan. -/
theorem hasPurchasedPlan_iff_mem_getPurchasedPlanIds (store : Ledger)
    (customerId : String) (planId : PlanId) :
    hasPurchasedPlan store customerId planId = true ↔
      planId ∈ getPurchasedPlanIds store customerId := by
  simp only [hasPurchasedPlan, getPurchasedPlanIds, List.any_eq_true, List.mem_map,
    List.mem_filter, isActiveFor, Bool.and_eq_true, decide_eq_true_eq]
  constructor
  · rintro ⟨p, hp, h1, h2⟩
    exact ⟨p, ⟨hp, by simpa using h2⟩, h1⟩
  · rintro ⟨p, ⟨hp, h2⟩, h1⟩
    exact ⟨p, hp, h1, by simpa using h2⟩

/-- Claim C5: `revokePurchase` (and the spec-modelled `cancelPurchase`)
transitions the status of the first matching active record for the
(customer, plan) pair — to `revoked`, respectively `canceled` — leaving every
other record untouched, and is a no-op leaving the ledger unchanged when no
active record exists for that pair. -/
theorem revoke_cancel_contract :
    (∀ store customerId planId,
      hasPurchasedPlan store customerId planId = false →
        revokePurchase store customerId planId = store ∧
        cancelPurchase store customerId planId = store) ∧
    (∀ store customerId planId,
      hasPurchasedPlan store customerId planId = true →
        ∃ l1 p l2,
          store customerId = l1 ++ p :: l2 ∧
          p.planId = planId ∧ p.status = Status.active ∧
          (∀ q ∈ l1, isActiveFor planId q = false) ∧
          revokePurchase store customerId planId = (fun c =>
            if c = customerId then l1 ++ { p with status := Status.revoked } :: l2
            else store c) ∧
          cancelPurchase store customerId planId = (fun c =>
            if c = customerId then l1 ++ { p with status := Status.canceled } :: l2
            else store c)) := by
  constructor
  · intro store customerId planId h
    exact ⟨revokePurchase_noop store customerId planId h,
      cancelPurchase_noop store customerId planId h⟩
  · intro store customerId planId h
    obtain ⟨l1, p, l2, h1, h2, h3, h4⟩ :=
      setFirstActive_spec planId (l := store customerId) (by simpa [hasPurchasedPlan] using h)
    have hp : p.planId = planId ∧ p.status = Status.active := by
      simpa [isActiveFor] using h2
    refine ⟨l1, p, l2, h1, hp.1, hp.2, h3, ?_, ?_⟩
    · funext c
      by_cases hc : c = customerId
      · subst hc
        simp [revokePurchase, h4 Status.revoked]
      · simp [revokePurchase, hc]
    · funext c
      by_cases hc : c = customerId
      · subst hc
        simp [cancelPurchase, h4 Status.canceled]
      · simp [cancelPurchase, hc]

/-- Witness for C5 at a concrete input (the no-op side on the empty ledger). -/
theorem revoke_cancel_contract_witness :
    revokePurchase emptyLedger "c1" PlanId.pro = emptyLedger ∧
    cancelPurchase emptyLedger "c1" PlanId.pro = emptyLedger :=
  revoke_cancel_contract.1 emptyLedger "c1" PlanId.pro (by decide)

/-- Claim C6: revocation is not permanently blocking — after `recordPurchase`
for a resolvable product followed by `revokePurchase` for the same
(customer, plan) pair, `hasPurchasedPlan` is false, and a subsequent
`recordPurchase` for the same pair appends a new active record to the
customer's list. -/
theorem revoke_then_repurchase (pmap : String → Option PlanId) (store : Ledger)
    (customerId productId orderId orderId2 : String) (now now2 : Nat)
    (planId : PlanId) (hres : pmap productId = some planId) (hinv : Inv store) :
    hasPurchasedPlan
        (revokePurchase (recordPurchase pmap store customerId productId orderId now)
          customerId planId) customerId planId = false ∧
    recordPurchase pmap
        (revokePurchase (recordPurchase pmap store customerId productId orderId now)
          customerId planId) customerId productId orderId2 now2 customerId
      = revokePurchase (recordPurchase pmap store customerId productId orderId now)
          customerId planId customerId ++
        [{ oderId := orderId2, customerId := customerId, productId := productId,
           planId := planId, purchasedAt := now2, status := Status.active }] := by
  have hc1 : activeCount (recordPurchase pmap store customerId productId orderId now)
      customerId planId = 1 :=
    activeCount_recordPurchase pmap store customerId productId orderId now planId hres hinv
  have hc2 : activeCount
      (revokePurchase (recordPurchase pmap store customerId productId orderId now)
        customerId planId) customerId planId = 0 := by
    rw [activeCount_revokePurchase, hc1]
  have hhas : hasPurchasedPlan
      (revokePurchase (recordPurchase pmap store customerId productId orderId now)
        customerId planId) customerId planId = false := by
    cases hb : hasPurchasedPlan
        (revokePurchase (recordPurchase pmap store customerId productId orderId now)
          customerId planId) customerId planId
    · rfl
    · exfalso
      have := (hasPurchasedPlan_iff_activeCount _ customerId planId).mp hb
      omega
  refine ⟨hhas, ?_⟩
  rw [recordPurchase_append pmap _ customerId productId orderId2 now2 planId hres hhas]
  simp

/-- Witness for C6 at a concrete input. -/
theorem revoke_then_repurchase_witness :
    hasPurchasedPlan
        (revokePurchase (recordPurchase pmapDemo emptyLedger "c1" "prod_pro" "o1" 0)
          "c1" PlanId.pro) "c1" PlanId.pro = false ∧
    recordPurchase pmapDemo
        (revokePurchase (recordPurchase pmapDemo emptyLedger "c1" "prod_pro" "o1" 0)
          "c1" PlanId.pro) "c1" "prod_pro" "o2" 1 "c1"
      = revokePurchase (recordPurchase pmapDemo emptyLedger "c1" "prod_pro" "o1" 0)
          "c1" PlanId.pro "c1" ++
        [{ oderId := "o2", customerId := "c1", productId := "prod_pro",
           planId := PlanId.pro, purchasedAt := 1, status := Status.active }] :=
  revoke_then_repurchase pmapDemo emptyLedger "c1" "prod_pro" "o1" "o2" 0 1 PlanId.pro
    (by decide) Inv_emptyLedger

/-- Claim C4: when the supplied signature header does not match the expected
signature over the raw body (tampered body, wrong or missing signature), the
webhook endpoint answers 401 and the ledger is returned exactly as it was —
no handler is dispatched, no record is created or mutated.  Stated for every
signature function, parser, freshness check, product map and ledger. -/
theorem webhook_auth_failure_atomic
    (hmac : String → String → String) (freshOk : String → Bool)
    (parse : String → Option PolarEvent) (pmap : String → Option PlanId)
    (now : Nat) (secret rawBody headerTimestamp headerSignature : String)
    (store : Ledger) (h : headerSignature ≠ hmac secret rawBody) :
    billingWebhooksPost hmac freshOk parse pmap now (some secret) rawBody
        headerTimestamp headerSignature store
      = { status := 401, ledger := store } := by
  simp [billingWebhooksPost, validateEvent, h]

/-- Witness for C4 at a concrete input. -/
theorem webhook_auth_failure_atomic_witness :
    billingWebhooksPost (fun s b => s ++ b) (fun _ => true) (fun _ => none)
        pmapDemo 0 (some "secret") "rawbody" "ts" "tampered" emptyLedger
      = { status := 401, ledger := emptyLedger } :=
  webhook_auth_failure_atomic (fun s b => s ++ b) (fun _ => true) (fun _ => none)
    pmapDemo 0 "secret" "rawbody" "ts" "tampered" emptyLedger (by decide)

/-- Claim C9: an authenticated, parseable event whose type matches none of the
switch cases falls into the `default` arm: the endpoint mutates nothing and
acknowledges with 200, never an error status. -/
theorem unknown_event_type_acknowledged
    (hmac : String → String → String) (freshOk : String → Bool)
    (parse : String → Option PolarEvent) (pmap : String → Option PlanId)
    (now : Nat) (secret rawBody headerTimestamp headerSignature : String)
    (store : Ledger) (event : PolarEvent)
    (hok : validateEvent hmac freshOk parse rawBody headerTimestamp headerSignature secret
      = Except.ok event)
    (hunk : event.type ∉ (["subscription.active", "subscription.canceled",
      "subscription.created", "subscription.updated", "subscription.revoked",
      "checkout.created", "checkout.updated", "order.created", "order.paid"] :
        List String)) :
    billingWebhooksPost hmac freshOk parse pmap now (some secret) rawBody
        headerTimestamp headerSignature store
      = { status := 200, ledger := store } := by
  simp only [List.mem_cons, List.not_mem_nil, or_false, not_or] at hunk
  obtain ⟨h1, h2, h3, h4, h5, h6, h7, h8, h9⟩ := hunk
  simp [billingWebhooksPost, hok, handleEvent, h1, h2, h3, h4, h5, h6, h7, h8, h9]

/-- Witness for C9 at a concrete input. -/
theorem unknown_event_type_acknowledged_witness :
    billingWebhooksPost (fun _ _ => "sig") (fun _ => true)
        (fun _ => some
          { type := "benefit.granted",
            data := { id := "x", customerId := "c1", productId := "p",
                      dataStatus := "" } })
        pmapDemo 0 (some "secret") "rawbody" "ts" "sig" emptyLedger
      = { status := 200, ledger := emptyLedger } :=
  unknown_event_type_acknowledged (fun _ _ => "sig") (fun _ => true)
    (fun _ => some
      { type := "benefit.granted",
        data := { id := "x", customerId := "c1", productId := "p",
                  dataStatus := "" } })
    pmapDemo 0 "secret" "rawbody" "ts" "sig" emptyLedger
    { type := "benefit.granted",
      data := { id := "x", customerId := "c1", productId := "p", dataStatus := "" } }
    (by simp [validateEvent]) (by decide)

/-- Claim C8: a checkout request naming a plan the POC customer already holds
active is rejected with the distinguishable "You have already purchased this
plan" error, the external checkout-session call is not made, and the ledger
is unchanged. -/
theorem checkout_duplicate_gate (store : Ledger)
    (proProductId masterProductId : Option String) (planStr : String)
    (planId : PlanId) (hparse : planOfString planStr = some planId)
    (h : hasPurchasedPlan store pocCustomerId planId = true) :
    createCheckout store proProductId masterProductId (some planStr)
      = (CheckoutResponse.badRequest "You have already purchased this plan",
          false, store) := by
  have hvalid : isValidPlan planStr = true := by
    unfold planOfString at hparse
    unfold isValidPlan
    by_cases h1 : planStr = "pro"
    · simp [h1]
    · by_cases h2 : planStr = "master"
      · simp [h2]
      · simp [h1, h2] at hparse
  simp [createCheckout, hvalid, hparse, h]

/-- Witness for C8 at a concrete input. -/
theorem checkout_duplicate_gate_witness :
    createCheckout storePoc (some "prod_pro") (some "prod_master") (some "pro")
      = (CheckoutResponse.badRequest "You have already purchased this plan",
          false, storePoc) :=
  checkout_duplicate_gate storePoc (some "prod_pro") (some "prod_master") "pro"
    PlanId.pro (by decide) (by decide)

/-- Claim C1 fails on the code: the webhook's `subscription.active` case calls
`onSubscriptionActive(event.data.customerId)` with only the customer id, so
`recordPurchase` never runs.  Evaluating the full delivery pipeline on the
spec's scenario (authenticated activation event for customer `c1`, product
mapped to `pro`, order `o1`, over the empty ledger): the delivery is
acknowledged with 200 but the ledger stays empty — `hasPurchasedPlan(c1,
"pro")` is false, and after a second identical delivery there are zero (not
one) active records for (c1, pro). -/
theorem activation_event_does_not_record :
    (deliverActivation emptyLedger).status = 200 ∧
    (deliverActivation emptyLedger).ledger "c1" = [] ∧
    hasPurchasedPlan (deliverActivation emptyLedger).ledger "c1" PlanId.pro = false ∧
    activeCount (deliverActivation (deliverActivation emptyLedger).ledger).ledger
      "c1" PlanId.pro = 0 := by
  refine ⟨by decide, by decide, by decide, by decide⟩

end Polar
